import Mathlib

/-!
Verification development for the GCE cloud instance group reconciler
(upup/pkg/fi/cloudup/gce instance-group discovery, matching,
classification and deletion) and the etcd-manager options builder
(pkg/model/components/etcdmanager/options.go).

The Go code is shallowly embedded: structs become Lean structures,
provider API calls become fields of a capability record, `(value, error)`
returns become `Except String` or `Option String × value` pairs, and the
mutable result map becomes an association list threaded through the
recursion.
-/

namespace KopsGce

/-- Embeds kops.Cluster; only ObjectMeta.Name is used by this code. -/
structure Cluster where
  Name : String
deriving DecidableEq, Repr

/-- Embeds kops.InstanceGroup; only ObjectMeta.Name is used by this code. -/
structure InstanceGroup where
  Name : String
deriving DecidableEq, Repr

/-- Embeds compute.InstanceTemplate; only SelfLink is used by this code. -/
structure InstanceTemplate where
  SelfLink : String
deriving DecidableEq, Repr

/-- Embeds compute.InstanceGroupManager, the live managed group:
name, zone, current template reference and target size. -/
structure InstanceGroupManager where
  Name : String
  Zone : String
  InstanceTemplate : String
  TargetSize : Int
deriving DecidableEq, Repr

/-- Embeds compute.ManagedInstanceVersion; only InstanceTemplate is used. -/
structure ManagedInstanceVersion where
  InstanceTemplate : String
deriving DecidableEq, Repr

/-- Embeds compute.ManagedInstance: instance URL, numeric id, and the
optional version (recorded template reference); Version is a nullable
pointer in Go, hence an Option here. -/
structure ManagedInstance where
  Instance : String
  Id : Nat
  Version : Option ManagedInstanceVersion
deriving DecidableEq, Repr

/-- Embeds v1.Node; only the external-id correlation key is used. -/
structure V1Node where
  ExternalID : String
deriving DecidableEq, Repr

/-- Embeds cloudinstances.CloudInstanceGroupMember: instance id and the
optionally correlated node (nil pointer in Go when absent). -/
structure CloudInstanceGroupMember where
  ID : String
  Node : Option V1Node
deriving DecidableEq, Repr

/-- Embeds cloudinstances.CloudInstanceGroup.  Raw holds interface{} in
Go but in this provider it always holds the *compute.InstanceGroupManager
stored at construction, so it is typed as such here. -/
structure CloudInstanceGroup where
  HumanName : String
  InstanceGroup : InstanceGroup
  MinSize : Int
  MaxSize : Int
  Raw : InstanceGroupManager
  Ready : List CloudInstanceGroupMember := []
  NeedUpdate : List CloudInstanceGroupMember := []
deriving DecidableEq, Repr

/-- Modelled from the spec: SafeObjectName is defined outside the given
sources; the spec's end-to-end scenario fixes the scheme (the object name
suffixed with the cluster name, dot separated: "us-east1-b.nodes.c1"). -/
def SafeObjectName (name : String) (clusterName : String) : String :=
  name ++ "." ++ clusterName

/-- Embeds NameForInstanceGroupManager: builds the name for an
InstanceGroupManager in the specified zone. -/
def NameForInstanceGroupManager (c : Cluster) (ig : InstanceGroup) (zone : String) : String :=
  SafeObjectName (zone ++ "." ++ ig.Name) c.Name

/-- Error message the matcher produces on an ambiguous match,
from fmt.Errorf("found multiple instance groups matching MIG %q", ...). -/
def ambiguousMatchMsg (name : String) : String :=
  "found multiple instance groups matching MIG \"" ++ name ++ "\""

/-- Embeds matchInstanceGroup: filters the declared instance groups for
the one whose derived name equals the live group's name.  Zero matching
groups is (nil, nil); more than one is an error; else the single match. -/
def matchInstanceGroup (mig : InstanceGroupManager) (c : Cluster)
    (instancegroups : List InstanceGroup) : Except String (Option InstanceGroup) :=
  let ms := instancegroups.filter
    (fun ig => NameForInstanceGroupManager c ig mig.Zone == mig.Name)
  match ms with
  | [] => .ok none
  | [ig] => .ok (some ig)
  | _ => .error (ambiguousMatchMsg mig.Name)

/-- Modelled from the spec: cloudinstances.GetNodeMap is defined outside
the given sources; the spec says the core builds an identifier-keyed
lookup (external-id string to node) from the supplied node list. -/
def GetNodeMap (nodes : List V1Node) : String → Option V1Node :=
  fun key => nodes.find? (fun n => n.ExternalID == key)

/-- Builds the member record for one managed instance: its instance URL
as ID and, when the decimal rendering of its numeric id is found in the
node lookup, the correlated node (strconv.FormatUint(i.Id, 10)). -/
def mkMember (nodesByExternalID : String → Option V1Node)
    (i : ManagedInstance) : CloudInstanceGroupMember :=
  { ID := i.Instance, Node := nodesByExternalID (Nat.repr i.Id) }

/-- Condition under which the instance loop appends to Ready:
i.Version != nil && latestInstanceTemplate == i.Version.InstanceTemplate. -/
def isReadyInstance (latestInstanceTemplate : String) (i : ManagedInstance) : Bool :=
  match i.Version with
  | some v => latestInstanceTemplate == v.InstanceTemplate
  | none => false

/-- Embeds the instance loop of getCloudGroups: each instance becomes a
member and is appended to Ready when its recorded template equals the
group's current template, and to NeedUpdate otherwise; enumeration order
is preserved in both partitions. -/
def classifyInstances (latestInstanceTemplate : String)
    (nodesByExternalID : String → Option V1Node) :
    List ManagedInstance → List CloudInstanceGroupMember × List CloudInstanceGroupMember
  | [] => ([], [])
  | i :: rest =>
    let cm := mkMember nodesByExternalID i
    let (ready, needUpdate) := classifyInstances latestInstanceTemplate nodesByExternalID rest
    if isReadyInstance latestInstanceTemplate i then
      (cm :: ready, needUpdate)
    else
      (ready, cm :: needUpdate)

/-- The provider capability used by getCloudGroups and the deleter, per
the external-interface section of the design: FindInstanceTemplates,
Zones, the paged InstanceGroupManagers listing, ListManagedInstances and
the two delete calls are fallible remote calls made through the GCECloud
value.  A page of the listing is an Except so a page fetch itself can
fail mid-iteration. -/
structure GCECloud where
  FindInstanceTemplates : String → Except String (List InstanceTemplate)
  Zones : Except String (List String)
  MIGPages : String → List (Except String (List InstanceGroupManager))
  ListManagedInstances : InstanceGroupManager → Except String (List ManagedInstance)
  DeleteInstanceGroupManagerCall : InstanceGroupManager → Option String
  DeleteInstanceTemplateCall : String → Option String

/-- The result map, keyed by MIG name; insertion overwrites an existing
key like a Go map assignment does. -/
abbrev GroupsMap := List (String × CloudInstanceGroup)

/-- Map assignment groups[name] = g: replaces the entry when the key is
present, appends otherwise. -/
def mapInsert (groups : GroupsMap) (name : String) (g : CloudInstanceGroup) : GroupsMap :=
  match groups with
  | [] => [(name, g)]
  | (k, v) :: rest =>
    if k == name then (name, g) :: rest
    else (k, v) :: mapInsert rest name g

/-- Map lookup groups[name]. -/
def mapLookup (groups : GroupsMap) (name : String) : Option CloudInstanceGroup :=
  match groups with
  | [] => none
  | (k, v) :: rest => if k == name then some v else mapLookup rest name

/-- The instanceTemplates index keyed by SelfLink; only presence is
consulted (instanceTemplate == nil check). -/
def templateIndexHas (instanceTemplates : List InstanceTemplate) (link : String) : Bool :=
  (instanceTemplates.find? (fun t => t.SelfLink == link)).isSome

/-- Embeds the body of the Pages callback for one MIG.  Go inserts the
group pointer into the map before listing instances and then appends the
members through it; since an instance-listing failure makes the whole
call return a nil map, inserting the fully built record after a
successful listing is result-equivalent.  Skips (unowned template,
unmatched group) leave the map unchanged; warnUnmatched only logs. -/
def processMIG (c : GCECloud) (cluster : Cluster) (instancegroups : List InstanceGroup)
    (instanceTemplates : List InstanceTemplate)
    (nodesByExternalID : String → Option V1Node)
    (groups : GroupsMap) (mig : InstanceGroupManager) : Except String GroupsMap :=
  if !(templateIndexHas instanceTemplates mig.InstanceTemplate) then
    .ok groups
  else
    match matchInstanceGroup mig cluster instancegroups with
    | .error _ =>
      .error ("error getting instance group for MIG \"" ++ mig.Name ++ "\"")
    | .ok none => .ok groups
    | .ok (some ig) =>
      let latestInstanceTemplate := mig.InstanceTemplate
      match c.ListManagedInstances mig with
      | .error e => .error e
      | .ok instances =>
        let (ready, needUpdate) :=
          classifyInstances latestInstanceTemplate nodesByExternalID instances
        let g : CloudInstanceGroup :=
          { HumanName := mig.Name
            InstanceGroup := ig
            MinSize := mig.TargetSize
            MaxSize := mig.TargetSize
            Raw := mig
            Ready := ready
            NeedUpdate := needUpdate }
        .ok (mapInsert groups mig.Name g)

/-- Embeds the loop over page.Items: sequential, aborting on the first
error, threading the result map. -/
def processMIGs (c : GCECloud) (cluster : Cluster) (instancegroups : List InstanceGroup)
    (instanceTemplates : List InstanceTemplate)
    (nodesByExternalID : String → Option V1Node)
    (groups : GroupsMap) : List InstanceGroupManager → Except String GroupsMap
  | [] => .ok groups
  | mig :: rest =>
    match processMIG c cluster instancegroups instanceTemplates nodesByExternalID groups mig with
    | .error e => .error e
    | .ok groups2 =>
      processMIGs c cluster instancegroups instanceTemplates nodesByExternalID groups2 rest

/-- Embeds Pages: consume pages in order; a failed page fetch or a
callback error aborts with that error, otherwise all pages feed the same
map. -/
def processPages (c : GCECloud) (cluster : Cluster) (instancegroups : List InstanceGroup)
    (instanceTemplates : List InstanceTemplate)
    (nodesByExternalID : String → Option V1Node)
    (groups : GroupsMap) :
    List (Except String (List InstanceGroupManager)) → Except String GroupsMap
  | [] => .ok groups
  | page :: rest =>
    match page with
    | .error e => .error e
    | .ok items =>
      match processMIGs c cluster instancegroups instanceTemplates nodesByExternalID groups items with
      | .error e => .error e
      | .ok groups2 =>
        processPages c cluster instancegroups instanceTemplates nodesByExternalID groups2 rest

/-- Embeds the zone loop: each zone's paged listing is consumed; a
failure aborts the whole call wrapped as
fmt.Errorf("error listing InstanceGroupManagers: %v", err). -/
def processZones (c : GCECloud) (cluster : Cluster) (instancegroups : List InstanceGroup)
    (instanceTemplates : List InstanceTemplate)
    (nodesByExternalID : String → Option V1Node)
    (groups : GroupsMap) : List String → Except String GroupsMap
  | [] => .ok groups
  | zoneName :: rest =>
    match processPages c cluster instancegroups instanceTemplates nodesByExternalID groups
        (c.MIGPages zoneName) with
    | .error e => .error ("error listing InstanceGroupManagers: " ++ e)
    | .ok groups2 =>
      processZones c cluster instancegroups instanceTemplates nodesByExternalID groups2 rest

/-- Embeds getCloudGroups.  The Go signature returns
(map[string]*cloudinstances.CloudInstanceGroup, error); the pair of
options keeps the two return values distinct: every failure path is
`return nil, err`, i.e. (none, some err), and success is (some groups,
none).  warnUnmatched only controls logging and has no effect on the
result, but is kept to mirror the signature. -/
def getCloudGroups (c : GCECloud) (cluster : Cluster) (instancegroups : List InstanceGroup)
    (warnUnmatched : Bool) (nodes : List V1Node) :
    Option GroupsMap × Option String :=
  let _ := warnUnmatched
  let nodesByExternalID := GetNodeMap nodes
  match c.FindInstanceTemplates cluster.Name with
  | .error e => (none, some e)
  | .ok templates =>
    match c.Zones with
    | .error e => (none, some e)
    | .ok zones =>
      match processZones c cluster instancegroups templates nodesByExternalID [] zones with
      | .error e => (none, some e)
      | .ok groups => (some groups, none)

/-- One provider delete call made by the deleter, recorded so the order
and presence of the two calls can be stated. -/
inductive DeleteCall where
  | igm (mig : InstanceGroupManager)
  | template (ref : String)
deriving DecidableEq, Repr

/-- Embeds deleteCloudInstanceGroup: deletes the InstanceGroupManager
recovered from g.Raw and, only if that succeeded, the InstanceTemplate
it referenced, returning the template deletion's result as its own.
The second component records the provider calls actually made. -/
def deleteCloudInstanceGroup (c : GCECloud) (g : CloudInstanceGroup) :
    Option String × List DeleteCall :=
  let mig := g.Raw
  match c.DeleteInstanceGroupManagerCall mig with
  | some e => (some e, [DeleteCall.igm mig])
  | none =>
    (c.DeleteInstanceTemplateCall mig.InstanceTemplate,
      [DeleteCall.igm mig, DeleteCall.template mig.InstanceTemplate])

/-! Substring containment over the character lists of strings, used to
state which context an error message carries. -/

/-- Whether the first character list is an initial segment of the second. -/
def charListStarts : List Char → List Char → Bool
  | [], _ => true
  | _ :: _, [] => false
  | a :: as, b :: bs => a == b && charListStarts as bs

/-- Whether the first character list occurs contiguously in the second. -/
def charListContains (needle : List Char) : List Char → Bool
  | [] => needle.isEmpty
  | b :: bs => charListStarts needle (b :: bs) || charListContains needle bs

/-- Whether needle occurs as a contiguous substring of hay. -/
def strContainsSub (needle hay : String) : Bool :=
  charListContains needle.data hay.data

/-! Concrete values used by the witness and counterexample theorems. -/

/-- Example cluster "c1". -/
def clusterEx : Cluster := ⟨"c1"⟩

/-- Example declared instance group "nodes". -/
def igEx : InstanceGroup := ⟨"nodes"⟩

/-- Example live managed group whose name is the derived name of igEx in
zone us-east1-b for clusterEx. -/
def migEx : InstanceGroupManager :=
  { Name := "us-east1-b.nodes.c1", Zone := "us-east1-b"
    InstanceTemplate := "tmpl-1", TargetSize := 3 }

/-- Example reconciled group wrapping migEx, as the deleter receives it. -/
def cigEx : CloudInstanceGroup :=
  { HumanName := "us-east1-b.nodes.c1", InstanceGroup := igEx
    MinSize := 3, MaxSize := 3, Raw := migEx }

/-- Example live instance created from tmpl-1 with numeric id 42. -/
def instEx : ManagedInstance :=
  { Instance := "https://compute/instances/i-1", Id := 42
    Version := some ⟨"tmpl-1"⟩ }

/-- Capability whose managed-group deletion always fails. -/
def cloudDeleteFailEx : GCECloud :=
  { FindInstanceTemplates := fun _ => .ok []
    Zones := .ok []
    MIGPages := fun _ => []
    ListManagedInstances := fun _ => .ok []
    DeleteInstanceGroupManagerCall := fun _ => some "cannot delete manager"
    DeleteInstanceTemplateCall := fun _ => none }

/-- Capability whose managed-group deletion succeeds and whose template
deletion fails. -/
def cloudTemplateFailEx : GCECloud :=
  { FindInstanceTemplates := fun _ => .ok []
    Zones := .ok []
    MIGPages := fun _ => []
    ListManagedInstances := fun _ => .ok []
    DeleteInstanceGroupManagerCall := fun _ => none
    DeleteInstanceTemplateCall := fun _ => some "cannot delete template" }

/-- Capability with two zones whose second zone's page fetch fails. -/
def cloudPageFailEx : GCECloud :=
  { FindInstanceTemplates := fun _ => .ok [⟨"tmpl-1"⟩]
    Zones := .ok ["zone-a", "zone-b"]
    MIGPages := fun z => if z == "zone-b" then [.error "page fetch failed"] else [.ok []]
    ListManagedInstances := fun _ => .ok []
    DeleteInstanceGroupManagerCall := fun _ => none
    DeleteInstanceTemplateCall := fun _ => none }

/-- Capability exposing migEx in one zone with its template owned. -/
def cloudOneMigEx : GCECloud :=
  { FindInstanceTemplates := fun _ => .ok [⟨"tmpl-1"⟩]
    Zones := .ok ["us-east1-b"]
    MIGPages := fun _ => [.ok [migEx]]
    ListManagedInstances := fun _ => .ok [instEx]
    DeleteInstanceGroupManagerCall := fun _ => none
    DeleteInstanceTemplateCall := fun _ => none }

end KopsGce

namespace KopsEtcd

/-- Embeds kops.EtcdManagerSpec; its fields are not read by this code,
Image stands for its payload. -/
structure EtcdManagerSpec where
  Image : String := ""
deriving DecidableEq, Repr

/-- Embeds kops.EtcdBackupSpec; only BackupStore is touched by this
code, and the fresh allocation in BuildOptions has BackupStore "". -/
structure EtcdBackupSpec where
  BackupStore : String := ""
deriving DecidableEq, Repr

/-- Embeds kops.EtcdClusterSpec with the fields this code reads or
writes: Name, Version, and the nullable Manager and Backups pointers. -/
structure EtcdClusterSpec where
  Name : String
  Version : String := ""
  Manager : Option EtcdManagerSpec := none
  Backups : Option EtcdBackupSpec := none
deriving DecidableEq, Repr

/-- Embeds kops.ClusterSpec with the fields this code reads: ConfigBase
and the etcd cluster list (a list of pointers in Go, mutated in place;
here mapped functionally). -/
structure ClusterSpec where
  ConfigBase : String
  EtcdClusters : List EtcdClusterSpec := []
deriving DecidableEq, Repr

/-- Modelled from the spec: urls.Join is defined outside the given
sources; it joins a base URL and path elements with "/" separators. -/
def urlsJoin (base : String) (elems : List String) : String :=
  elems.foldl (fun acc e => acc ++ "/" ++ e) base

/-- Embeds the per-element body of BuildOptions's loop: default the etcd
Version to "2.2.1" when empty, and when Manager is set, allocate Backups
if absent and default an empty BackupStore to
urls.Join(ConfigBase, "backups", "etcd", Name). -/
def buildEtcdCluster (configBase : String) (ec : EtcdClusterSpec) : EtcdClusterSpec :=
  let ec1 := if ec.Version = "" then { ec with Version := "2.2.1" } else ec
  match ec1.Manager with
  | none => ec1
  | some _ =>
    let backups := ec1.Backups.getD {}
    let backups2 :=
      if backups.BackupStore = "" then
        { backups with BackupStore := urlsJoin configBase ["backups", "etcd", ec1.Name] }
      else backups
    { ec1 with Backups := some backups2 }

/-- Embeds EtcdManagerOptionsBuilder.BuildOptions.  The Go method takes
the spec through an interface and mutates the pointed-to etcd cluster
specs, returning nil; here it returns the updated spec and the error. -/
def BuildOptions (spec : ClusterSpec) : ClusterSpec × Option String :=
  ({ spec with EtcdClusters := spec.EtcdClusters.map (buildEtcdCluster spec.ConfigBase) },
    none)

/-- Example cluster spec with one etcd cluster using the manager and no
explicit version or backup store. -/
def specEx : ClusterSpec :=
  { ConfigBase := "gs://state-store/c1"
    EtcdClusters := [{ Name := "main", Manager := some {} }] }

end KopsEtcd

namespace KopsGce

/-- Filtering a list by a predicate and by its negation splits its
length. -/
theorem length_filter_add_length_filter_not {α : Type} (p : α → Bool) (l : List α) :
    (l.filter p).length + (l.filter (fun a => !(p a))).length = l.length := by
  induction l with
  | nil => rfl
  | cons a t ih =>
    cases h : p a <;> simp [List.filter_cons, h] <;> omega

/-- The instance loop is exactly the two filters of the input by the
readiness condition, each mapped through the member constructor. -/
theorem classifyInstances_eq (latest : String) (nodeMap : String → Option V1Node) :
    ∀ instances : List ManagedInstance,
      classifyInstances latest nodeMap instances =
        ((instances.filter (isReadyInstance latest)).map (mkMember nodeMap),
         (instances.filter (fun i => !(isReadyInstance latest i))).map (mkMember nodeMap))
  | [] => rfl
  | i :: rest => by
    have ih := classifyInstances_eq latest nodeMap rest
    cases h : isReadyInstance latest i <;>
      simp [classifyInstances, ih, List.filter_cons, h]

/-- C1: matchInstanceGroup returns exactly the declared group whose
derived name (NameForInstanceGroupManager with the live group's zone)
equals the live group's name when exactly one such group exists, returns
absent with no error when none matches, and fails with the ambiguous
match error naming the live group when two or more match. -/
theorem C1_match_cardinality (mig : InstanceGroupManager) (c : Cluster)
    (igs : List InstanceGroup) :
    (igs.filter (fun ig => NameForInstanceGroupManager c ig mig.Zone == mig.Name) = [] →
        matchInstanceGroup mig c igs = .ok none)
    ∧ (∀ ig, igs.filter (fun g => NameForInstanceGroupManager c g mig.Zone == mig.Name) = [ig] →
        matchInstanceGroup mig c igs = .ok (some ig))
    ∧ (2 ≤ (igs.filter (fun ig => NameForInstanceGroupManager c ig mig.Zone == mig.Name)).length →
        matchInstanceGroup mig c igs = .error (ambiguousMatchMsg mig.Name)) := by
  refine ⟨fun h => ?_, fun ig h => ?_, fun h => ?_⟩
  · simp [matchInstanceGroup, h]
  · simp [matchInstanceGroup, h]
  · rcases hf : igs.filter (fun ig => NameForInstanceGroupManager c ig mig.Zone == mig.Name)
      with _ | ⟨a, _ | ⟨b, t⟩⟩
    · rw [hf] at h; simp at h
    · rw [hf] at h; simp at h
    · simp [matchInstanceGroup, hf]

/-- Witness for C1 at a concrete input with exactly one matching
declared group. -/
theorem C1_match_cardinality_witness :
    matchInstanceGroup migEx clusterEx [igEx] = .ok (some igEx) :=
  (C1_match_cardinality migEx clusterEx [igEx]).2.1 igEx (by decide)

/-- C2: every live instance lands in exactly one of the Ready and
NeedUpdate partitions, Ready exactly when its recorded template
reference equals the group's current template reference (an absent
reference goes to NeedUpdate), and the partition sizes sum to the input
size. -/
theorem C2_classification_partition (latest : String) (nodeMap : String → Option V1Node)
    (instances : List ManagedInstance) :
    classifyInstances latest nodeMap instances =
      ((instances.filter (isReadyInstance latest)).map (mkMember nodeMap),
       (instances.filter (fun i => !(isReadyInstance latest i))).map (mkMember nodeMap))
    ∧ (classifyInstances latest nodeMap instances).1.length
        + (classifyInstances latest nodeMap instances).2.length = instances.length := by
  refine ⟨classifyInstances_eq latest nodeMap instances, ?_⟩
  rw [classifyInstances_eq]
  simpa using length_filter_add_length_filter_not (isReadyInstance latest) instances

/-- C9: an instance whose decimal numeric id has no node in the lookup
still yields a member record with an absent node reference, and the
instance is still placed into Ready or NeedUpdate as usual. -/
theorem C9_absent_node_member (latest : String) (nodeMap : String → Option V1Node)
    (instances : List ManagedInstance) (i : ManagedInstance)
    (hmem : i ∈ instances) (hnode : nodeMap (Nat.repr i.Id) = none) :
    (mkMember nodeMap i).Node = none
    ∧ (isReadyInstance latest i = true →
        mkMember nodeMap i ∈ (classifyInstances latest nodeMap instances).1)
    ∧ (isReadyInstance latest i = false →
        mkMember nodeMap i ∈ (classifyInstances latest nodeMap instances).2) := by
  refine ⟨by simp [mkMember, hnode], fun h => ?_, fun h => ?_⟩
  · rw [classifyInstances_eq]
    exact List.mem_map_of_mem _ (List.mem_filter.2 ⟨hmem, h⟩)
  · rw [classifyInstances_eq]
    exact List.mem_map_of_mem _ (List.mem_filter.2 ⟨hmem, by simp [h]⟩)

/-- Witness for C9: no nodes are known, so the lookup misses, yet the
member is built with an absent node and lands in Ready. -/
theorem C9_absent_node_member_witness :
    (mkMember (GetNodeMap []) instEx).Node = none
    ∧ mkMember (GetNodeMap []) instEx ∈ (classifyInstances "tmpl-1" (GetNodeMap []) [instEx]).1 := by
  have h := C9_absent_node_member "tmpl-1" (GetNodeMap []) [instEx] instEx (by simp) rfl
  exact ⟨h.1, h.2.1 (by decide)⟩

/-- C3: when deleting the InstanceGroupManager fails, the deleter
returns that error at once, having made only the manager delete call;
no template delete call is ever made. -/
theorem C3_group_delete_failure (c : GCECloud) (g : CloudInstanceGroup) (e : String)
    (h : c.DeleteInstanceGroupManagerCall g.Raw = some e) :
    deleteCloudInstanceGroup c g = (some e, [DeleteCall.igm g.Raw])
    ∧ ∀ ref, DeleteCall.template ref ∉ (deleteCloudInstanceGroup c g).2 := by
  constructor
  · simp [deleteCloudInstanceGroup, h]
  · intro ref
    simp [deleteCloudInstanceGroup, h]

/-- Witness for C3 on a capability whose manager deletion fails. -/
theorem C3_group_delete_failure_witness :
    deleteCloudInstanceGroup cloudDeleteFailEx cigEx =
      (some "cannot delete manager", [DeleteCall.igm migEx])
    ∧ ∀ ref, DeleteCall.template ref ∉ (deleteCloudInstanceGroup cloudDeleteFailEx cigEx).2 :=
  C3_group_delete_failure cloudDeleteFailEx cigEx "cannot delete manager" rfl

/-- C4: when deleting the InstanceGroupManager succeeds, the deleter
deletes exactly the InstanceTemplate the manager referenced and returns
that template deletion's result as its own. -/
theorem C4_template_delete_after_group (c : GCECloud) (g : CloudInstanceGroup)
    (h : c.DeleteInstanceGroupManagerCall g.Raw = none) :
    deleteCloudInstanceGroup c g =
      (c.DeleteInstanceTemplateCall g.Raw.InstanceTemplate,
       [DeleteCall.igm g.Raw, DeleteCall.template g.Raw.InstanceTemplate]) := by
  simp [deleteCloudInstanceGroup, h]

/-- Witness for C4 on a capability whose manager deletion succeeds and
whose template deletion fails; the template failure is the result. -/
theorem C4_template_delete_after_group_witness :
    deleteCloudInstanceGroup cloudTemplateFailEx cigEx =
      (some "cannot delete template",
       [DeleteCall.igm migEx, DeleteCall.template "tmpl-1"]) :=
  C4_template_delete_after_group cloudTemplateFailEx cigEx rfl

/-- C7: a managed group whose referenced template is not in the
ownership index is skipped entirely: processing it leaves the result map
unchanged with no error, and processing a page containing it equals
processing the page without it. -/
theorem C7_unowned_template_skipped (c : GCECloud) (cluster : Cluster)
    (igs : List InstanceGroup) (ts : List InstanceTemplate)
    (nodeMap : String → Option V1Node) (groups : GroupsMap)
    (mig : InstanceGroupManager) (rest : List InstanceGroupManager)
    (h : templateIndexHas ts mig.InstanceTemplate = false) :
    processMIG c cluster igs ts nodeMap groups mig = .ok groups
    ∧ processMIGs c cluster igs ts nodeMap groups (mig :: rest) =
        processMIGs c cluster igs ts nodeMap groups rest := by
  constructor
  · simp [processMIG, h]
  · simp [processMIGs, processMIG, h]

/-- Witness for C7: the empty template index owns nothing, so migEx is
skipped. -/
theorem C7_unowned_template_skipped_witness :
    processMIG cloudOneMigEx clusterEx [igEx] [] (GetNodeMap []) [] migEx = .ok []
    ∧ processMIGs cloudOneMigEx clusterEx [igEx] [] (GetNodeMap []) [] [migEx] =
        processMIGs cloudOneMigEx clusterEx [igEx] [] (GetNodeMap []) [] [] :=
  C7_unowned_template_skipped cloudOneMigEx clusterEx [igEx] [] (GetNodeMap []) [] migEx [] rfl

/-- Lookup after insertion at the same key finds the inserted group. -/
theorem mapLookup_mapInsert (groups : GroupsMap) (name : String) (g : CloudInstanceGroup) :
    mapLookup (mapInsert groups name g) name = some g := by
  induction groups with
  | nil => simp [mapInsert, mapLookup]
  | cons kv rest ih =>
    obtain ⟨k, v⟩ := kv
    by_cases h : k == name
    · simp [mapInsert, mapLookup, h]
    · simp [mapInsert, mapLookup, h, ih]

/-- C8: a matched managed group yields a record whose MinSize and
MaxSize both equal the group's target size and whose HumanName is the
group's name, inserted into the result map under that name. -/
theorem C8_matched_group_record (c : GCECloud) (cluster : Cluster)
    (igs : List InstanceGroup) (ts : List InstanceTemplate)
    (nodeMap : String → Option V1Node) (groups : GroupsMap)
    (mig : InstanceGroupManager) (ig : InstanceGroup) (instances : List ManagedInstance)
    (h1 : templateIndexHas ts mig.InstanceTemplate = true)
    (h2 : matchInstanceGroup mig cluster igs = .ok (some ig))
    (h3 : c.ListManagedInstances mig = .ok instances) :
    ∃ g, processMIG c cluster igs ts nodeMap groups mig = .ok (mapInsert groups mig.Name g)
      ∧ g.HumanName = mig.Name
      ∧ g.MinSize = mig.TargetSize
      ∧ g.MaxSize = mig.TargetSize
      ∧ g.InstanceGroup = ig
      ∧ mapLookup (mapInsert groups mig.Name g) mig.Name = some g := by
  rcases hcl : classifyInstances mig.InstanceTemplate nodeMap instances with ⟨ready, needUpdate⟩
  refine ⟨{ HumanName := mig.Name, InstanceGroup := ig, MinSize := mig.TargetSize,
            MaxSize := mig.TargetSize, Raw := mig, Ready := ready, NeedUpdate := needUpdate },
          ?_, rfl, rfl, rfl, rfl, mapLookup_mapInsert groups mig.Name _⟩
  simp [processMIG, h1, h2, h3, hcl]

/-- Witness for C8 at migEx matched to igEx with one live instance. -/
theorem C8_matched_group_record_witness :
    ∃ g, processMIG cloudOneMigEx clusterEx [igEx] [⟨"tmpl-1"⟩] (GetNodeMap []) [] migEx =
        .ok (mapInsert [] migEx.Name g)
      ∧ g.HumanName = migEx.Name
      ∧ g.MinSize = migEx.TargetSize
      ∧ g.MaxSize = migEx.TargetSize
      ∧ g.InstanceGroup = igEx
      ∧ mapLookup (mapInsert [] migEx.Name g) migEx.Name = some g :=
  C8_matched_group_record cloudOneMigEx clusterEx [igEx] [⟨"tmpl-1"⟩] (GetNodeMap []) []
    migEx igEx [instEx] (by decide) rfl rfl

/-- Whether processing one MIG fails, and with which error, does not
depend on the result map accumulated so far. -/
theorem processMIG_error_iff (c : GCECloud) (cluster : Cluster) (igs : List InstanceGroup)
    (ts : List InstanceTemplate) (nodeMap : String → Option V1Node)
    (mig : InstanceGroupManager) (gs gs2 : GroupsMap) (e : String) :
    processMIG c cluster igs ts nodeMap gs mig = .error e ↔
      processMIG c cluster igs ts nodeMap gs2 mig = .error e := by
  have dir : ∀ a b : GroupsMap, processMIG c cluster igs ts nodeMap a mig = .error e →
      processMIG c cluster igs ts nodeMap b mig = .error e := by
    intro a b h
    cases ht : templateIndexHas ts mig.InstanceTemplate with
    | false => simp [processMIG, ht] at h
    | true =>
      rcases hm : matchInstanceGroup mig cluster igs with e0 | o
      · simp only [processMIG, ht, Bool.not_true, Bool.false_eq_true, if_false, hm] at h ⊢
        exact h
      · rcases o with _ | ig
        · simp [processMIG, ht, hm] at h
        · rcases hl : c.ListManagedInstances mig with e1 | insts
          · simp only [processMIG, ht, Bool.not_true, Bool.false_eq_true, if_false, hm, hl] at h ⊢
            exact h
          · simp [processMIG, ht, hm, hl] at h
  exact ⟨dir gs gs2, dir gs2 gs⟩

/-- Whether a page's MIG loop fails, and with which error, does not
depend on the result map accumulated so far. -/
theorem processMIGs_error_iff (c : GCECloud) (cluster : Cluster) (igs : List InstanceGroup)
    (ts : List InstanceTemplate) (nodeMap : String → Option V1Node) :
    ∀ (migs : List InstanceGroupManager) (gs gs2 : GroupsMap) (e : String),
      processMIGs c cluster igs ts nodeMap gs migs = .error e ↔
        processMIGs c cluster igs ts nodeMap gs2 migs = .error e := by
  intro migs
  induction migs with
  | nil => intro gs gs2 e; simp [processMIGs]
  | cons mig rest ih =>
    have dir : ∀ a b : GroupsMap, ∀ e,
        processMIGs c cluster igs ts nodeMap a (mig :: rest) = .error e →
        processMIGs c cluster igs ts nodeMap b (mig :: rest) = .error e := by
      intro a b e h
      rcases hpa : processMIG c cluster igs ts nodeMap a mig with ea | a2
      · have hpb := (processMIG_error_iff c cluster igs ts nodeMap mig a b ea).1 hpa
        simp only [processMIGs, hpa] at h
        simp only [processMIGs, hpb]
        exact h
      · simp only [processMIGs, hpa] at h
        rcases hpb : processMIG c cluster igs ts nodeMap b mig with eb | b2
        · exact absurd ((processMIG_error_iff c cluster igs ts nodeMap mig b a eb).1 hpb)
            (by simp [hpa])
        · simp only [processMIGs, hpb]
          exact (ih a2 b2 e).1 h
    intro gs gs2 e
    exact ⟨dir gs gs2 e, dir gs2 gs e⟩

/-- Whether a zone's paged listing fails, and with which error, does not
depend on the result map accumulated so far. -/
theorem processPages_error_iff (c : GCECloud) (cluster : Cluster) (igs : List InstanceGroup)
    (ts : List InstanceTemplate) (nodeMap : String → Option V1Node) :
    ∀ (pages : List (Except String (List InstanceGroupManager))) (gs gs2 : GroupsMap) (e : String),
      processPages c cluster igs ts nodeMap gs pages = .error e ↔
        processPages c cluster igs ts nodeMap gs2 pages = .error e := by
  intro pages
  induction pages with
  | nil => intro gs gs2 e; simp [processPages]
  | cons page rest ih =>
    have dir : ∀ a b : GroupsMap, ∀ e,
        processPages c cluster igs ts nodeMap a (page :: rest) = .error e →
        processPages c cluster igs ts nodeMap b (page :: rest) = .error e := by
      intro a b e h
      rcases page with ep | items
      · simpa [processPages] using h
      · rcases hpa : processMIGs c cluster igs ts nodeMap a items with ea | a2
        · have hpb := (processMIGs_error_iff c cluster igs ts nodeMap items a b ea).1 hpa
          simp only [processPages, hpa] at h
          simp only [processPages, hpb]
          exact h
        · simp only [processPages, hpa] at h
          rcases hpb : processMIGs c cluster igs ts nodeMap b items with eb | b2
          · exact absurd ((processMIGs_error_iff c cluster igs ts nodeMap items b a eb).1 hpb)
              (by simp [hpa])
          · simp only [processPages, hpb]
            exact (ih a2 b2 e).1 h
    intro gs gs2 e
    exact ⟨dir gs gs2 e, dir gs2 gs e⟩

/-- A zone anywhere in the zone list whose paged listing fails makes the
whole zone loop fail, from any accumulated result map. -/
theorem processZones_error_of_zone (c : GCECloud) (cluster : Cluster)
    (igs : List InstanceGroup) (ts : List InstanceTemplate)
    (nodeMap : String → Option V1Node) :
    ∀ zs : List String, ∀ z ∈ zs, ∀ e : String,
      processPages c cluster igs ts nodeMap [] (c.MIGPages z) = .error e →
      ∀ gs : GroupsMap, ∃ e2, processZones c cluster igs ts nodeMap gs zs = .error e2 := by
  intro zs
  induction zs with
  | nil => intro z hz; cases hz
  | cons z0 rest ih =>
    intro z hz e hfail gs
    rcases List.mem_cons.1 hz with rfl | hz2
    · have hp := (processPages_error_iff c cluster igs ts nodeMap (c.MIGPages z) [] gs e).1 hfail
      exact ⟨"error listing InstanceGroupManagers: " ++ e, by simp [processZones, hp]⟩
    · rcases hp : processPages c cluster igs ts nodeMap gs (c.MIGPages z0) with e0 | gs2
      · exact ⟨"error listing InstanceGroupManagers: " ++ e0, by simp [processZones, hp]⟩
      · obtain ⟨e2, h2⟩ := ih z hz2 e hfail gs2
        exact ⟨e2, by simp [processZones, hp, h2]⟩

/-- C5: discovery is all-or-nothing: the call either returns a map with
no error or no map with an error, a failed template listing or zone
listing yields exactly that error and no map, and a failing paged
managed-group listing (or instance listing) in any zone of the zone list
yields an error and no map, discarding everything built so far. -/
theorem C5_discovery_all_or_nothing (c : GCECloud) (cluster : Cluster)
    (igs : List InstanceGroup) (warn : Bool) (nodes : List V1Node) :
    ((∃ m, getCloudGroups c cluster igs warn nodes = (some m, none))
      ∨ (∃ e, getCloudGroups c cluster igs warn nodes = (none, some e)))
    ∧ (∀ e, c.FindInstanceTemplates cluster.Name = .error e →
        getCloudGroups c cluster igs warn nodes = (none, some e))
    ∧ (∀ ts e, c.FindInstanceTemplates cluster.Name = .ok ts → c.Zones = .error e →
        getCloudGroups c cluster igs warn nodes = (none, some e))
    ∧ (∀ ts zs z e, c.FindInstanceTemplates cluster.Name = .ok ts → c.Zones = .ok zs →
        z ∈ zs →
        processPages c cluster igs ts (GetNodeMap nodes) [] (c.MIGPages z) = .error e →
        ∃ e2, getCloudGroups c cluster igs warn nodes = (none, some e2)) := by
  refine ⟨?_, ?_, ?_, ?_⟩
  · rcases hf : c.FindInstanceTemplates cluster.Name with e | ts
    · exact .inr ⟨e, by simp [getCloudGroups, hf]⟩
    · rcases hz : c.Zones with e | zs
      · exact .inr ⟨e, by simp [getCloudGroups, hf, hz]⟩
      · rcases hp : processZones c cluster igs ts (GetNodeMap nodes) [] zs with e | gs
        · exact .inr ⟨e, by simp [getCloudGroups, hf, hz, hp]⟩
        · exact .inl ⟨gs, by simp [getCloudGroups, hf, hz, hp]⟩
  · intro e hf
    simp [getCloudGroups, hf]
  · intro ts e hf hz
    simp [getCloudGroups, hf, hz]
  · intro ts zs z e hf hz hmem hfail
    obtain ⟨e2, h2⟩ :=
      processZones_error_of_zone c cluster igs ts (GetNodeMap nodes) zs z hmem e hfail []
    exact ⟨e2, by simp [getCloudGroups, hf, hz, h2]⟩

/-- Witness for C5: the second zone's page fetch fails, so the call
returns no map and an error even though zone-a was processed fully. -/
theorem C5_discovery_all_or_nothing_witness :
    ∃ e2, getCloudGroups cloudPageFailEx clusterEx [igEx] false [] = (none, some e2) :=
  (C5_discovery_all_or_nothing cloudPageFailEx clusterEx [igEx] false []).2.2.2
    [⟨"tmpl-1"⟩] ["zone-a", "zone-b"] "zone-b" "page fetch failed"
    rfl rfl (by decide) rfl

/-- The MIG loop over a concatenation runs the first part and, on
success, the second part from the resulting map. -/
theorem processMIGs_append (c : GCECloud) (cluster : Cluster) (igs : List InstanceGroup)
    (ts : List InstanceTemplate) (nodeMap : String → Option V1Node)
    (l1 l2 : List InstanceGroupManager) :
    ∀ gs : GroupsMap, processMIGs c cluster igs ts nodeMap gs (l1 ++ l2) =
      match processMIGs c cluster igs ts nodeMap gs l1 with
      | .error e => .error e
      | .ok gs2 => processMIGs c cluster igs ts nodeMap gs2 l2 := by
  induction l1 with
  | nil => intro gs; simp [processMIGs]
  | cons mig rest ih =>
    intro gs
    rcases hp : processMIG c cluster igs ts nodeMap gs mig with e | gs2
    · simp [processMIGs, hp]
    · simp [processMIGs, hp, ih gs2]

/-- The zone loop over a concatenation runs the first part and, on
success, the second part from the resulting map. -/
theorem processZones_append (c : GCECloud) (cluster : Cluster) (igs : List InstanceGroup)
    (ts : List InstanceTemplate) (nodeMap : String → Option V1Node)
    (l1 l2 : List String) :
    ∀ gs : GroupsMap, processZones c cluster igs ts nodeMap gs (l1 ++ l2) =
      match processZones c cluster igs ts nodeMap gs l1 with
      | .error e => .error e
      | .ok gs2 => processZones c cluster igs ts nodeMap gs2 l2 := by
  induction l1 with
  | nil => intro gs; simp [processZones]
  | cons z rest ih =>
    intro gs
    rcases hp : processPages c cluster igs ts nodeMap gs (c.MIGPages z) with e | gs2
    · simp [processZones, hp]
    · simp [processZones, hp, ih gs2]

/-- A matcher failure only happens when some declared group's derived
name (under the live group's zone) equals the live group's name. -/
theorem matchInstanceGroup_error_name (mig : InstanceGroupManager) (c : Cluster)
    (igs : List InstanceGroup) (e0 : String)
    (h : matchInstanceGroup mig c igs = .error e0) :
    ∃ ig, ig ∈ igs ∧ NameForInstanceGroupManager c ig mig.Zone = mig.Name := by
  rcases hf : igs.filter (fun ig => NameForInstanceGroupManager c ig mig.Zone == mig.Name)
    with _ | ⟨a, t⟩
  · simp [matchInstanceGroup, hf] at h
  · have ha : a ∈ igs.filter (fun ig => NameForInstanceGroupManager c ig mig.Zone == mig.Name) := by
      rw [hf]; exact List.mem_cons_self a t
    have hm := List.mem_filter.1 ha
    exact ⟨a, hm.1, eq_of_beq hm.2⟩

/-- An initial segment is recognized by charListStarts. -/
theorem charListStarts_append (n s : List Char) : charListStarts n (n ++ s) = true := by
  induction n with
  | nil => rfl
  | cons a t ih => simp [charListStarts, ih]

/-- A contiguous occurrence after any prefix is found by
charListContains. -/
theorem charListContains_append (p n s : List Char) :
    charListContains n (p ++ (n ++ s)) = true := by
  induction p with
  | nil =>
    cases n with
    | nil =>
      cases s with
      | nil => rfl
      | cons b bs => rfl
    | cons a t =>
      have h := charListStarts_append (a :: t) s
      simp only [List.cons_append] at h
      simp [charListContains, h]
  | cons b bs ih => simp [charListContains, ih]

/-- A string whose character data splits around the needle's data
contains the needle as a substring. -/
theorem strContainsSub_of_data (sub hay : String) (p s : List Char)
    (h : hay.data = p ++ (sub.data ++ s)) : strContainsSub sub hay = true := by
  simp [strContainsSub, h, charListContains_append]

/-- C6: a matcher ambiguity anywhere in the pass (any zone position, any
position in the page, everything before it succeeding) aborts the whole
discovery with no result map, and the propagated error message contains
both the live group's name and (through the derived naming scheme, which
embeds the zone in the group name) the zone. -/
theorem C6_ambiguity_error_context (c : GCECloud) (cluster : Cluster)
    (igs : List InstanceGroup) (warn : Bool) (nodes : List V1Node)
    (ts : List InstanceTemplate) (zpre : List String) (z : String) (zpost : List String)
    (gs1 : GroupsMap) (migs1 : List InstanceGroupManager) (mig : InstanceGroupManager)
    (migs2 : List InstanceGroupManager) (gs2 : GroupsMap)
    (h1 : c.FindInstanceTemplates cluster.Name = .ok ts)
    (h2 : c.Zones = .ok (zpre ++ z :: zpost))
    (h3 : processZones c cluster igs ts (GetNodeMap nodes) [] zpre = .ok gs1)
    (h4 : c.MIGPages z = [.ok (migs1 ++ mig :: migs2)])
    (h5 : processMIGs c cluster igs ts (GetNodeMap nodes) gs1 migs1 = .ok gs2)
    (h6 : templateIndexHas ts mig.InstanceTemplate = true)
    (h7 : ∃ e0, matchInstanceGroup mig cluster igs = .error e0) :
    ∃ e, getCloudGroups c cluster igs warn nodes = (none, some e)
      ∧ e = "error listing InstanceGroupManagers: " ++
          ("error getting instance group for MIG \"" ++ mig.Name ++ "\"")
      ∧ strContainsSub mig.Name e = true
      ∧ strContainsSub mig.Zone e = true := by
  obtain ⟨e0, hm⟩ := h7
  obtain ⟨ig, higs, hname⟩ := matchInstanceGroup_error_name mig cluster igs e0 hm
  have hpm : processMIG c cluster igs ts (GetNodeMap nodes) gs2 mig =
      .error ("error getting instance group for MIG \"" ++ mig.Name ++ "\"") := by
    simp [processMIG, h6, hm]
  have hms : processMIGs c cluster igs ts (GetNodeMap nodes) gs1 (migs1 ++ mig :: migs2) =
      .error ("error getting instance group for MIG \"" ++ mig.Name ++ "\"") := by
    rw [processMIGs_append c cluster igs ts (GetNodeMap nodes) migs1 (mig :: migs2) gs1, h5]
    simp [processMIGs, hpm]
  have hpp : processPages c cluster igs ts (GetNodeMap nodes) gs1 (c.MIGPages z) =
      .error ("error getting instance group for MIG \"" ++ mig.Name ++ "\"") := by
    rw [h4]
    simp [processPages, hms]
  have hz : processZones c cluster igs ts (GetNodeMap nodes) [] (zpre ++ z :: zpost) =
      .error ("error listing InstanceGroupManagers: " ++
        ("error getting instance group for MIG \"" ++ mig.Name ++ "\"")) := by
    rw [processZones_append c cluster igs ts (GetNodeMap nodes) zpre (z :: zpost) [], h3]
    simp [processZones, hpp]
  refine ⟨_, by simp [getCloudGroups, h1, h2, hz], rfl, ?_, ?_⟩
  · refine strContainsSub_of_data mig.Name _
      ("error listing InstanceGroupManagers: ".data ++
        "error getting instance group for MIG \"".data)
      "\"".data ?_
    simp
  · refine strContainsSub_of_data mig.Zone _
      ("error listing InstanceGroupManagers: ".data ++
        "error getting instance group for MIG \"".data)
      (("." ++ ig.Name ++ "." ++ cluster.Name).data ++ "\"".data) ?_
    rw [← hname]
    simp [NameForInstanceGroupManager, SafeObjectName]

/-- Witness for C6: two declared groups named nodes both derive the
name of migEx, so the single-zone pass aborts with the wrapped error. -/
theorem C6_ambiguity_error_context_witness :
    ∃ e, getCloudGroups cloudOneMigEx clusterEx [igEx, igEx] false [] = (none, some e)
      ∧ e = "error listing InstanceGroupManagers: " ++
          ("error getting instance group for MIG \"" ++ migEx.Name ++ "\"")
      ∧ strContainsSub migEx.Name e = true
      ∧ strContainsSub migEx.Zone e = true :=
  C6_ambiguity_error_context cloudOneMigEx clusterEx [igEx, igEx] false []
    [⟨"tmpl-1"⟩] [] "us-east1-b" [] [] [] migEx [] []
    rfl rfl rfl rfl rfl rfl ⟨ambiguousMatchMsg migEx.Name, rfl⟩

end KopsGce

namespace KopsEtcd

/-- The default backup store path is never the empty string. -/
theorem urlsJoin_ne_empty (cb name : String) :
    urlsJoin cb ["backups", "etcd", name] ≠ "" := by
  intro h
  have h2 := congrArg String.length h
  rw [show urlsJoin cb ["backups", "etcd", name] =
      ((((((cb ++ "/") ++ "backups") ++ "/") ++ "etcd") ++ "/") ++ name) from rfl] at h2
  simp only [String.length_append] at h2
  have hb : ("backups" : String).length = 7 := rfl
  have hs : ("/" : String).length = 1 := rfl
  have he : ("etcd" : String).length = 4 := rfl
  have h0 : ("" : String).length = 0 := rfl
  simp only [hb, hs, he, h0] at h2
  omega

/-- Field-by-field description of one pass of the options builder over
a single etcd cluster spec. -/
theorem buildEtcdCluster_fields (cb : String) (ec : EtcdClusterSpec) :
    (buildEtcdCluster cb ec).Name = ec.Name
    ∧ (buildEtcdCluster cb ec).Manager = ec.Manager
    ∧ (buildEtcdCluster cb ec).Version =
        (if ec.Version = "" then "2.2.1" else ec.Version)
    ∧ (ec.Manager = none → (buildEtcdCluster cb ec).Backups = ec.Backups)
    ∧ (ec.Manager ≠ none →
        (buildEtcdCluster cb ec).Backups =
          some { BackupStore :=
            match ec.Backups with
            | none => urlsJoin cb ["backups", "etcd", ec.Name]
            | some ob =>
              if ob.BackupStore = "" then urlsJoin cb ["backups", "etcd", ec.Name]
              else ob.BackupStore }) := by
  obtain ⟨nm, ver, man, bks⟩ := ec
  rcases man with _ | m
  · by_cases hv : ver = "" <;> simp [buildEtcdCluster, hv]
  · rcases bks with _ | ob
    · by_cases hv : ver = "" <;> simp [buildEtcdCluster, hv]
    · by_cases hv : ver = "" <;> by_cases hs : ob.BackupStore = "" <;>
        simp [buildEtcdCluster, hv, hs, Option.getD]

/-- Running the per-cluster body twice gives the same result as once. -/
theorem buildEtcdCluster_idem (cb : String) (ec : EtcdClusterSpec) :
    buildEtcdCluster cb (buildEtcdCluster cb ec) = buildEtcdCluster cb ec := by
  obtain ⟨nm, ver, man, bks⟩ := ec
  have h221 : ¬(("2.2.1" : String) = "") := by decide
  rcases man with _ | m
  · by_cases hv : ver = "" <;> simp [buildEtcdCluster, hv, h221]
  · rcases bks with _ | ob
    · by_cases hv : ver = "" <;>
        simp [buildEtcdCluster, hv, h221, Option.getD, urlsJoin_ne_empty cb nm]
    · by_cases hv : ver = "" <;> by_cases hs : ob.BackupStore = "" <;>
        simp [buildEtcdCluster, hv, hs, h221, Option.getD, urlsJoin_ne_empty cb nm]

/-- C10: BuildOptions returns no error, leaves ConfigBase and the etcd
cluster count unchanged, and for each etcd cluster changes only empty
fields: Name and Manager are untouched, Version becomes "2.2.1" exactly
when it was empty, Backups is untouched when Manager is absent, and when
Manager is present Backups is allocated if needed with BackupStore
defaulted only when it was empty; running BuildOptions again changes
nothing. -/
theorem C10_build_options_frame (spec : ClusterSpec) :
    (BuildOptions spec).2 = none
    ∧ (BuildOptions spec).1.ConfigBase = spec.ConfigBase
    ∧ (BuildOptions spec).1.EtcdClusters.length = spec.EtcdClusters.length
    ∧ (∀ i (h1 : i < spec.EtcdClusters.length)
          (h2 : i < (BuildOptions spec).1.EtcdClusters.length),
        ((BuildOptions spec).1.EtcdClusters[i]).Name = (spec.EtcdClusters[i]).Name
        ∧ ((BuildOptions spec).1.EtcdClusters[i]).Manager = (spec.EtcdClusters[i]).Manager
        ∧ ((BuildOptions spec).1.EtcdClusters[i]).Version =
            (if (spec.EtcdClusters[i]).Version = "" then "2.2.1"
             else (spec.EtcdClusters[i]).Version)
        ∧ ((spec.EtcdClusters[i]).Manager = none →
            ((BuildOptions spec).1.EtcdClusters[i]).Backups = (spec.EtcdClusters[i]).Backups)
        ∧ ((spec.EtcdClusters[i]).Manager ≠ none →
            ((BuildOptions spec).1.EtcdClusters[i]).Backups =
              some { BackupStore :=
                match (spec.EtcdClusters[i]).Backups with
                | none =>
                  urlsJoin spec.ConfigBase ["backups", "etcd", (spec.EtcdClusters[i]).Name]
                | some ob =>
                  if ob.BackupStore = "" then
                    urlsJoin spec.ConfigBase ["backups", "etcd", (spec.EtcdClusters[i]).Name]
                  else ob.BackupStore }))
    ∧ (BuildOptions (BuildOptions spec).1).1 = (BuildOptions spec).1 := by
  refine ⟨rfl, rfl, by simp [BuildOptions], ?_, ?_⟩
  · intro i h1 h2
    have hget : (BuildOptions spec).1.EtcdClusters[i] =
        buildEtcdCluster spec.ConfigBase (spec.EtcdClusters[i]) := by
      simp [BuildOptions]
    rw [hget]
    exact buildEtcdCluster_fields spec.ConfigBase (spec.EtcdClusters[i])
  · simp only [BuildOptions, List.map_map]
    refine congrArg _ ?_
    refine List.map_congr_left ?_
    intro ec _
    exact buildEtcdCluster_idem spec.ConfigBase ec

/-- Witness for C10 on a spec with one managed etcd cluster having no
version and no backups: the version and backup store get defaulted. -/
theorem C10_build_options_frame_witness :
    (BuildOptions specEx).2 = none
    ∧ ∃ h2 : 0 < (BuildOptions specEx).1.EtcdClusters.length,
        ((BuildOptions specEx).1.EtcdClusters.get ⟨0, h2⟩).Version = "2.2.1"
        ∧ ((BuildOptions specEx).1.EtcdClusters.get ⟨0, h2⟩).Backups =
            some { BackupStore := urlsJoin "gs://state-store/c1" ["backups", "etcd", "main"] } := by
  have h := C10_build_options_frame specEx
  have h4 := h.2.2.2.1 0 (by decide) (by decide)
  refine ⟨h.1, ⟨by decide, ?_, ?_⟩⟩
  · exact h4.2.2.1
  · exact h4.2.2.2.2 (by decide)

end KopsEtcd
